import Mathlib

/-!
Verification of the client-side request/session layer of the Career Compass
front end: the generic HTTP client (BaseApiService), the authentication
service (AuthService), the retry utility (BaseController.createRetryOperation),
the session-activity and route-protection predicates (AppController), and the
signup form validation schema.

The JavaScript/TypeScript code is shallowly embedded: asynchronous calls
become explicit outcome parameters (the settled value of the awaited promise),
localStorage becomes an explicit key-value store threaded through the
functions, and JavaScript truthiness on strings is modelled by a `truthy`
predicate (null/undefined ↦ none, "" ↦ falsy).
-/

/-- JavaScript `a || b` on a possibly-missing string `a` (undefined and the
empty string are falsy, so the fallback is used for both). -/
def jsOr (o : Option String) (fallback : String) : String :=
  match o with
  | some s => if s = "" then fallback else s
  | none => fallback

/-- JavaScript truthiness of a possibly-missing string: `null`/`undefined`
and `""` are falsy, every other string is truthy. -/
def truthy (o : Option String) : Bool :=
  match o with
  | some s => if s = "" then false else true
  | none => false

/-- Field-level error map carried by API envelopes
(`Record<string, string[]>` in the source). -/
abbrev ErrorsMap := List (String × List String)

/-- The uniform response envelope `ApiResponse<T>` from BaseApiService:
`{ success, data?, message?, errors? }` (the optional pagination `meta`
field is never consulted by the verified operations and is omitted). -/
structure ApiResponse (α : Type) where
  success : Bool
  data : Option α
  message : Option String
  errors : Option ErrorsMap
deriving DecidableEq, Repr

/-- The ApiError class: `{ message, status, errors? }`. -/
structure ApiError where
  message : String
  status : Nat
  errors : Option ErrorsMap
deriving DecidableEq, Repr

/-- A settled HTTP response as seen by `processResponse`: the status code,
the status text, and the body parsed as JSON (`none` when `response.json()`
throws, i.e. the body is not valid JSON). -/
structure HttpResponse (α : Type) where
  status : Nat
  statusText : String
  jsonBody : Option (ApiResponse α)
deriving DecidableEq, Repr

/-- How the single underlying `fetch` settles: with an HTTP response, or
with a transport-level failure (DNS, connection refused, TLS, ...) carrying
the thrown error's message. -/
inductive FetchResult (α : Type) where
  | success (r : HttpResponse α)
  | failure (msg : String)
deriving DecidableEq, Repr

/-- Which side of `Promise.race([fetch(...), timeoutPromise])` settles
first: the fetch, or the timeout timer. -/
inductive RaceOutcome (α : Type) where
  | fetchFirst (r : FetchResult α)
  | timerFirst
deriving DecidableEq, Repr

/-- Header maps. JavaScript object semantics are modelled by a list of
insertions in program order where a later binding for a key overrides an
earlier one (exactly what object spread and `Object.assign` do). -/
abbrev Headers := List (String × String)

/-- Lookup in a header map: fold over the insertions in order, a later
binding for the key overriding an earlier one. -/
def hget (hs : Headers) (k : String) : Option String :=
  hs.foldl (fun acc p => if p.1 = k then some p.2 else acc) none

/-- JavaScript `delete headers[k]`: the key is gone afterwards, so every
binding of `k` is dropped. -/
def hdelete (hs : Headers) (k : String) : Headers :=
  hs.filter (fun p => !(p.1 == k))

/-- Request body as classified by `request`: a multipart `FormData` payload,
or any other (JSON-serialized) payload carried as an opaque string. A falsy
JavaScript body (absent, `null`, ...) is modelled as `none`. -/
inductive Body where
  | formData
  | jsonData (payload : String)
deriving DecidableEq, Repr

/-- The RequestOptions configuration object of BaseApiService:
`{ method?, headers?, body?, requireAuth?, timeout? }` (query `params` play
no role in the verified properties and are omitted). `none` models an
absent/undefined field. -/
structure RequestOptions where
  method : Option String
  headers : Headers
  body : Option Body
  requireAuth : Option Bool
  timeout : Option Nat
deriving DecidableEq, Repr

/-- The default headers object literal built at the top of
`prepareHeaders`. -/
def defaultHeaders : Headers :=
  [("Content-Type", "application/json"), ("Accept", "application/json")]

/-- AuthService.getAuthHeaders: `token ? { Authorization: Bearer token } : {}`
where `token` is the value stored under the token key (JS truthiness: a
stored empty string yields no header). -/
def getAuthHeaders (storedToken : Option String) : Headers :=
  match storedToken with
  | some t => if t = "" then [] else [("Authorization", "Bearer " ++ t)]
  | none => []

/-- BaseApiService.prepareHeaders: spread the defaults, then the caller's
headers (caller overrides), then `Object.assign` the auth headers on top
unless `requireAuth` is explicitly `false`. -/
def prepareHeaders (opts : RequestOptions) (storedToken : Option String) : Headers :=
  let headers := defaultHeaders ++ opts.headers
  if opts.requireAuth ≠ some false then headers ++ getAuthHeaders storedToken
  else headers

/-- The header set actually attached to the outgoing request by `request`:
`prepareHeaders` output, minus `Content-Type` when a truthy body is a
`FormData` instance and the method is not GET
(`if (body && method !== 'GET') { if (body instanceof FormData) delete headers['Content-Type'] }`). -/
def sentHeaders (opts : RequestOptions) (storedToken : Option String) : Headers :=
  let headers := prepareHeaders opts storedToken
  match opts.body with
  | some Body.formData =>
      if opts.method.getD "GET" = "GET" then headers
      else hdelete headers "Content-Type"
  | _ => headers

/-- `Response.ok` of the fetch API: status in the inclusive range 200-299. -/
def responseOk (status : Nat) : Bool :=
  200 ≤ status && status ≤ 299

/-- The body-normalization step at the top of `processResponse`: the parsed
JSON body, or the synthesized
`{ success: false, message: 'Invalid response format from server' }`
envelope when `response.json()` throws. -/
def normalizeBody (jsonBody : Option (ApiResponse α)) : ApiResponse α :=
  match jsonBody with
  | some d => d
  | none => ⟨false, none, some "Invalid response format from server", none⟩

/-- BaseApiService.processResponse: normalize the body; on a non-ok status
throw `ApiError(responseData.message || 'HTTP status: statusText', status,
responseData.errors)`; on an ok status return the normalized envelope. -/
def processResponse (r : HttpResponse α) : Except ApiError (ApiResponse α) :=
  let responseData := normalizeBody r.jsonBody
  if responseOk r.status then Except.ok responseData
  else Except.error
    ⟨jsOr responseData.message ("HTTP " ++ toString r.status ++ ": " ++ r.statusText),
     r.status, responseData.errors⟩

/-- `private readonly defaultTimeout: number = 30000`. -/
def defaultTimeout : Nat := 30000

/-- The effective timeout destructured at the top of `request`:
`timeout = this.defaultTimeout` when the option is absent. -/
def effectiveTimeout (opts : RequestOptions) : Nat :=
  opts.timeout.getD defaultTimeout

/-- Instrumented result of one `request` call: the settled value (returned
envelope or thrown ApiError) together with the number of times the
underlying `fetch` was invoked during the call. -/
structure RequestResult (α : Type) where
  result : Except ApiError (ApiResponse α)
  fetchCalls : Nat
deriving Repr

/-- BaseApiService.request: start the single fetch, race it against the
timeout timer, then process. A timer win rejects with
`ApiError('Request timeout', 408)` which is rethrown as-is by the catch
block; a fetch transport failure (a plain Error, never an ApiError) is
wrapped as `ApiError(error.message, 0)`; a settled response goes through
`processResponse`, whose ApiError (if any) is rethrown unchanged. The fetch
appears exactly once in the body and there is no retry loop, so
`fetchCalls` is 1 in every branch. -/
def request (opts : RequestOptions) (race : RaceOutcome α) : RequestResult α :=
  match race with
  | RaceOutcome.timerFirst => ⟨Except.error ⟨"Request timeout", 408, none⟩, 1⟩
  | RaceOutcome.fetchFirst (FetchResult.failure msg) => ⟨Except.error ⟨msg, 0, none⟩, 1⟩
  | RaceOutcome.fetchFirst (FetchResult.success r) => ⟨processResponse r, 1⟩

/-- The localStorage key-value store, restricted to string keys and string
values as in the browser API. -/
abbrev Store := String → Option String

/-- `localStorage.setItem`. -/
def storeSet (s : Store) (k v : String) : Store :=
  fun q => if q = k then some v else s q

/-- `localStorage.removeItem`. -/
def storeRemove (s : Store) (k : String) : Store :=
  fun q => if q = k then none else s q

/-- The empty store (nothing persisted). -/
def emptyStore : Store := fun _ => none

/-- `private readonly TOKEN_KEY = 'career_compass_token'`. -/
def TOKEN_KEY : String := "career_compass_token"

/-- `private readonly USER_KEY = 'career_compass_user'`. -/
def USER_KEY : String := "career_compass_user"

/-- `private readonly REFRESH_TOKEN_KEY = 'career_compass_refresh_token'`. -/
def REFRESH_TOKEN_KEY : String := "career_compass_refresh_token"

/-- The User record: `{ id, email, firstName, lastName, createdAt, lastLogin? }`. -/
structure User where
  id : String
  email : String
  firstName : String
  lastName : String
  createdAt : String
  lastLogin : Option String
deriving DecidableEq, Repr

/-- `JSON.stringify(user)`: the serialized user record persisted under
USER_KEY. The exact JSON text is irrelevant to the verified properties;
what matters is that it is a string and is never empty. -/
def jsonUser (u : User) : String :=
  "\x7b\"id\":\"" ++ u.id ++ "\",\"email\":\"" ++ u.email ++
  "\",\"firstName\":\"" ++ u.firstName ++ "\",\"lastName\":\"" ++ u.lastName ++
  "\",\"createdAt\":\"" ++ u.createdAt ++ "\"\x7d"

/-- The data payload of a successful login/signup envelope:
`{ user, token, refreshToken? }`. -/
structure LoginData where
  user : User
  token : String
  refreshToken : Option String
deriving DecidableEq, Repr

/-- The AuthResponse value returned by login/signup:
`{ success, user?, token?, message?, errors? }`. -/
structure AuthResponse where
  success : Bool
  user : Option User
  token : Option String
  message : Option String
  errors : Option ErrorsMap
deriving DecidableEq, Repr

/-- AuthService.setAuthData: store the token, store the stringified user,
and store the refresh token only when it is truthy
(`if (refreshToken) localStorage.setItem(REFRESH_TOKEN_KEY, refreshToken)`). -/
def setAuthData (s : Store) (u : User) (token : String) (refreshToken : Option String) : Store :=
  let s1 := storeSet s TOKEN_KEY token
  let s2 := storeSet s1 USER_KEY (jsonUser u)
  match refreshToken with
  | some rt => if rt = "" then s2 else storeSet s2 REFRESH_TOKEN_KEY rt
  | none => s2

/-- AuthService.clearAuthData: remove all three persisted keys. -/
def clearAuthData (s : Store) : Store :=
  storeRemove (storeRemove (storeRemove s TOKEN_KEY) USER_KEY) REFRESH_TOKEN_KEY

/-- AuthService.getToken: `localStorage.getItem(TOKEN_KEY)`. -/
def getToken (s : Store) : Option String := s TOKEN_KEY

/-- AuthService.getRefreshToken: `localStorage.getItem(REFRESH_TOKEN_KEY)`. -/
def getRefreshToken (s : Store) : Option String := s REFRESH_TOKEN_KEY

/-- AuthService.isAuthenticated: `!!(token && user)` where `token` is the
stored token and `user` is the stored user JSON (`getStoredUser` returns
`userData ? JSON.parse(userData) : null`, so presence boils down to the
stored string being truthy). -/
def isAuthenticated (s : Store) : Bool :=
  truthy (getToken s) && truthy (s USER_KEY)

/-- AuthService.login, with the settled outcome of the awaited
`this.post('/auth/login', credentials, { requireAuth: false })` made an
explicit parameter. On a success envelope carrying data it persists the
payload via `setAuthData` and returns a success AuthResponse; on any other
envelope it returns the failure envelope's message (or 'Login failed') and
errors; a thrown ApiError is caught and turned into a failure AuthResponse
carrying the error's message. The store is returned alongside the result. -/
def login (s : Store) (net : Except ApiError (ApiResponse LoginData)) :
    AuthResponse × Store :=
  match net with
  | Except.error e => (⟨false, none, none, some e.message, none⟩, s)
  | Except.ok resp =>
    match resp.data, resp.success with
    | some d, true =>
        (⟨true, some d.user, some d.token, some "Login successful", none⟩,
         setAuthData s d.user d.token d.refreshToken)
    | _, _ =>
        (⟨false, none, none, some (jsOr resp.message "Login failed"), resp.errors⟩, s)

/-- The SignupCredentials object: LoginCredentials plus
`{ firstName, lastName, confirmPassword }`. -/
structure SignupCredentials where
  email : String
  password : String
  firstName : String
  lastName : String
  confirmPassword : String
deriving DecidableEq, Repr

/-- The request body built by
`const { confirmPassword, ...signupData } = credentials` in
AuthService.signup: every field of the credentials except
`confirmPassword`. -/
structure SignupBody where
  email : String
  password : String
  firstName : String
  lastName : String
deriving DecidableEq, Repr

/-- The rest-spread `signupData` sent as the signup request body. -/
def signupSentBody (c : SignupCredentials) : SignupBody :=
  ⟨c.email, c.password, c.firstName, c.lastName⟩

/-- AuthService.signup: same shape as login, except the body posted to
/auth/signup is `signupSentBody` (credentials minus `confirmPassword`).
The body actually sent is returned as the third component. -/
def signup (c : SignupCredentials) (s : Store)
    (net : Except ApiError (ApiResponse LoginData)) :
    AuthResponse × Store × SignupBody :=
  match net with
  | Except.error e => (⟨false, none, none, some e.message, none⟩, s, signupSentBody c)
  | Except.ok resp =>
    match resp.data, resp.success with
    | some d, true =>
        (⟨true, some d.user, some d.token, some "Signup successful", none⟩,
         setAuthData s d.user d.token d.refreshToken, signupSentBody c)
    | _, _ =>
        (⟨false, none, none, some (jsOr resp.message "Signup failed"), resp.errors⟩,
         s, signupSentBody c)

/-- AuthService.logout, with the settled outcome of the best-effort
`this.post('/auth/logout', {})` as an explicit (and deliberately unused)
parameter: the POST is attempted only when the stored token is truthy, any
outcome (success or thrown error, which the catch block merely logs) is
discarded, and the `finally` block always runs `clearAuthData`. The Bool
records whether the network notification was attempted. -/
def logout (s : Store) (net : Except ApiError (ApiResponse Unit)) : Store × Bool :=
  let _ := net
  (clearAuthData s, truthy (getToken s))

/-- The data payload of a successful /auth/refresh envelope:
`{ token, refreshToken? }`. -/
structure RefreshData where
  token : String
  refreshToken : Option String
deriving DecidableEq, Repr

/-- The `{ success, token? }` value returned by refreshAuthToken. -/
structure RefreshResult where
  success : Bool
  token : Option String
deriving DecidableEq, Repr

/-- AuthService.refreshAuthToken, with the settled outcome of the awaited
`this.post('/auth/refresh', { refreshToken }, { requireAuth: false })` as an
explicit parameter. With no truthy stored refresh token it returns failure
immediately (the third Bool component — whether the network call was
performed — is false). On a success envelope with data it overwrites
TOKEN_KEY and, when the new refresh token is truthy, REFRESH_TOKEN_KEY; on
a failure envelope or a thrown error it returns failure with the store
untouched. -/
def refreshAuthToken (s : Store) (net : Except ApiError (ApiResponse RefreshData)) :
    RefreshResult × Store × Bool :=
  match getRefreshToken s with
  | none => (⟨false, none⟩, s, false)
  | some rt =>
    if rt = "" then (⟨false, none⟩, s, false)
    else
      match net with
      | Except.error _ => (⟨false, none⟩, s, true)
      | Except.ok resp =>
        match resp.data, resp.success with
        | some d, true =>
            let s1 := storeSet s TOKEN_KEY d.token
            let s2 := match d.refreshToken with
              | some nrt => if nrt = "" then s1 else storeSet s1 REFRESH_TOKEN_KEY nrt
              | none => s1
            (⟨true, some d.token⟩, s2, true)
        | _, _ => (⟨false, none⟩, s, true)

/-- Trace of one `createRetryOperation` call: the settled value (the
operation's success value, or the rethrown last error — `none` models the
`throw lastError!` on an undefined `lastError` when the loop never ran),
the number of times the operation was invoked, and the successive waits
(in milliseconds) performed between attempts. -/
structure RetryTrace (α : Type) where
  result : Except (Option String) α
  invocations : Nat
  waits : List Nat
deriving Repr

/-- The body of the `for (attempt = 1; attempt <= maxRetries; attempt++)`
loop of BaseController.createRetryOperation, recursing over the list of
remaining attempt numbers. A successful invocation returns immediately; a
failing one rethrows on the last attempt (`attempt === maxRetries`, i.e. no
attempts remain) and otherwise waits `delay * attempt` before retrying.
The operation is a function of the attempt number to its settled outcome;
errors are strings (the thrown Error's message — non-Error throws are
wrapped by the source as `new Error('Unknown error')`, still an error value
carried unmodified from there on). -/
def retryGo (op : Nat → Except String α) (delay : Nat) :
    List Nat → Option String → RetryTrace α
  | [], lastError => ⟨Except.error lastError, 0, []⟩
  | attempt :: rest, _ =>
    match op attempt with
    | Except.ok v => ⟨Except.ok v, 1, []⟩
    | Except.error e =>
      if rest.isEmpty then ⟨Except.error (some e), 1, []⟩
      else
        let r := retryGo op delay rest (some e)
        ⟨r.result, r.invocations + 1, delay * attempt :: r.waits⟩

/-- BaseController.createRetryOperation: run the attempt loop for the
attempt numbers 1, 2, ..., maxRetries (an empty range when
maxRetries ≤ 0), with `lastError` initially undefined. The source defaults
are maxRetries = 3 and delay = 1000. -/
def createRetryOperation (op : Nat → Except String α) (maxRetries : Int) (delay : Nat) :
    RetryTrace α :=
  retryGo op delay (List.range' 1 maxRetries.toNat) none

/-- AppController.isSessionActive: `(now - lastActivity) < maxInactiveMinutes * 60 * 1000`.
Timestamps are millisecond clock readings (`Date.getTime()`). -/
def isSessionActive (now lastActivity : Int) (maxInactiveMinutes : Int) : Bool :=
  decide ((now - lastActivity) < maxInactiveMinutes * 60 * 1000)

/-- JavaScript `String.prototype.startsWith`, modelled on the character
lists of the two strings. -/
def listStarts : List Char → List Char → Bool
  | _, [] => true
  | [], _ :: _ => false
  | c :: cs, d :: ds => c = d && listStarts cs ds

/-- `path.startsWith(route)`. -/
def strStarts (path route : String) : Bool :=
  listStarts path.data route.data

/-- The fixed prefix list of AppController.isProtectedRoute. -/
def protectedRoutes : List String :=
  ["/upload", "/results", "/history", "/profile", "/settings"]

/-- AppController.isProtectedRoute:
`protectedRoutes.some(route => path.startsWith(route))`. -/
def isProtectedRoute (path : String) : Bool :=
  protectedRoutes.any (fun route => strStarts path route)

/-- The zod signup schema of SignupForm.tsx: firstName and lastName at
least 2 characters, a valid email, password at least 8 characters, refined
by `password === confirmPassword`. Zod's internal email test is library
code, so it is abstracted as a Boolean parameter. -/
def signupSchemaValid (emailOk : String → Bool) (c : SignupCredentials) : Bool :=
  decide (2 ≤ c.firstName.length) && decide (2 ≤ c.lastName.length) &&
  emailOk c.email && decide (8 ≤ c.password.length) &&
  decide (c.password = c.confirmPassword)

/-- What a form submission does: reach the network with a request body, or
get rejected client-side with no network call. -/
inductive SubmitAction where
  | networkCall (body : SignupBody)
  | rejected
deriving DecidableEq, Repr

/-- The signup form submission pipeline: react-hook-form with
`zodResolver(signupSchema)` runs the schema first and invokes the submit
callback (which posts `signupSentBody`) only when validation passes;
otherwise the submission is rejected with field errors and no network call
is made. -/
def signupFormSubmit (emailOk : String → Bool) (c : SignupCredentials) : SubmitAction :=
  if signupSchemaValid emailOk c then SubmitAction.networkCall (signupSentBody c)
  else SubmitAction.rejected

lemma hget_foldl (k : String) (hs : Headers) (acc : Option String) :
    hs.foldl (fun a p => if p.1 = k then some p.2 else a) acc =
      (match hget hs k with
       | some v => some v
       | none => acc) := by
  induction hs generalizing acc with
  | nil => simp [hget]
  | cons p t ih =>
    rw [List.foldl_cons, ih]
    have hh : hget (p :: t) k =
        (match hget t k with
         | some v => some v
         | none => if p.1 = k then some p.2 else none) := by
      rw [hget, List.foldl_cons, ih]
    rw [hh]
    cases hget t k with
    | some v => rfl
    | none => by_cases hp : p.1 = k <;> simp [hp]

lemma hget_append (h1 h2 : Headers) (k : String) :
    hget (h1 ++ h2) k =
      (match hget h2 k with
       | some v => some v
       | none => hget h1 k) := by
  rw [hget, List.foldl_append, hget_foldl]
  rfl

lemma tk_ne_uk : TOKEN_KEY ≠ USER_KEY := by decide
lemma tk_ne_rk : TOKEN_KEY ≠ REFRESH_TOKEN_KEY := by decide
lemma uk_ne_rk : USER_KEY ≠ REFRESH_TOKEN_KEY := by decide

lemma storeSet_get_same (s : Store) (k v : String) : storeSet s k v k = some v := by
  simp [storeSet]

lemma storeSet_get_ne (s : Store) (k v q : String) (h : q ≠ k) :
    storeSet s k v q = s q := by
  simp [storeSet, h]

lemma storeRemove_get_same (s : Store) (k : String) : storeRemove s k k = none := by
  simp [storeRemove]

lemma storeRemove_get_ne (s : Store) (k q : String) (h : q ≠ k) :
    storeRemove s k q = s q := by
  simp [storeRemove, h]

lemma jsonUser_ne_empty (u : User) : jsonUser u ≠ "" := by
  intro h
  have h2 := congrArg String.data h
  simp only [jsonUser, String.data_append] at h2
  simp [List.append_eq_nil] at h2

/-- C1: Every call to BaseApiService.request settles in exactly one of these
ways: it returns the parsed envelope when the fetch settles first with a
success-range status; it throws ApiError with status 408 and message
"Request timeout" when the timeout timer (default 30000 ms, overridable per
call via options.timeout) elapses before the fetch settles; it throws
ApiError carrying the original HTTP status code for a response outside the
success range; or it throws ApiError with status 0 for any other transport
failure. The underlying fetch is invoked at most once per call. -/
theorem request_settles_in_exactly_one_way (α : Type) (opts : RequestOptions) :
    (request opts (RaceOutcome.timerFirst : RaceOutcome α)).result =
        Except.error ⟨"Request timeout", 408, none⟩ ∧
    (∀ r : HttpResponse α, responseOk r.status = true →
        (request opts (RaceOutcome.fetchFirst (FetchResult.success r))).result =
          Except.ok (normalizeBody r.jsonBody)) ∧
    (∀ r : HttpResponse α, responseOk r.status = false →
        (request opts (RaceOutcome.fetchFirst (FetchResult.success r))).result =
          Except.error ⟨jsOr (normalizeBody r.jsonBody).message
              ("HTTP " ++ toString r.status ++ ": " ++ r.statusText),
            r.status, (normalizeBody r.jsonBody).errors⟩) ∧
    (∀ msg : String,
        (request opts (RaceOutcome.fetchFirst (FetchResult.failure msg) : RaceOutcome α)).result =
          Except.error ⟨msg, 0, none⟩) ∧
    (∀ race : RaceOutcome α, (request opts race).fetchCalls = 1) ∧
    effectiveTimeout ⟨opts.method, opts.headers, opts.body, opts.requireAuth, none⟩ = 30000 ∧
    (∀ t : Nat,
        effectiveTimeout ⟨opts.method, opts.headers, opts.body, opts.requireAuth, some t⟩ = t) := by
  refine ⟨rfl, ?_, ?_, fun msg => rfl, ?_, rfl, fun t => rfl⟩
  · intro r h
    simp [request, processResponse, h]
  · intro r h
    simp [request, processResponse, h]
  · intro race
    cases race with
    | timerFirst => rfl
    | fetchFirst fr => cases fr <;> rfl

/-- Concrete request options for the C1 witness. -/
def opts0 : RequestOptions := ⟨some "GET", [], none, none, none⟩

/-- A 200 response with a well-formed envelope. -/
def r200 : HttpResponse Nat := ⟨200, "OK", some ⟨true, some 7, none, none⟩⟩

/-- A 500 response whose envelope carries no message. -/
def r500 : HttpResponse Nat := ⟨500, "Server Error", some ⟨false, none, none, none⟩⟩

theorem request_settlement_witness :
    (request opts0 (RaceOutcome.fetchFirst (FetchResult.success r200))).result =
        Except.ok ⟨true, some 7, none, none⟩ ∧
    (request opts0 (RaceOutcome.fetchFirst (FetchResult.success r500))).result =
        Except.error ⟨"HTTP 500: Server Error", 500, none⟩ ∧
    (request opts0 (RaceOutcome.timerFirst : RaceOutcome Nat)).result =
        Except.error ⟨"Request timeout", 408, none⟩ := by
  have h := request_settles_in_exactly_one_way Nat opts0
  exact ⟨h.2.1 r200 rfl, h.2.2.1 r500 rfl, h.1⟩

lemma uk_ne_tk : USER_KEY ≠ TOKEN_KEY := by decide
lemma rk_ne_tk : REFRESH_TOKEN_KEY ≠ TOKEN_KEY := by decide
lemma rk_ne_uk : REFRESH_TOKEN_KEY ≠ USER_KEY := by decide

lemma setAuthData_token (s : Store) (u : User) (token : String) (rt : Option String) :
    setAuthData s u token rt TOKEN_KEY = some token := by
  cases rt with
  | none => simp [setAuthData, storeSet, tk_ne_uk]
  | some r =>
    by_cases hr : r = "" <;>
      simp [setAuthData, storeSet, hr, tk_ne_uk, tk_ne_rk]

lemma setAuthData_user (s : Store) (u : User) (token : String) (rt : Option String) :
    setAuthData s u token rt USER_KEY = some (jsonUser u) := by
  cases rt with
  | none => simp [setAuthData, storeSet]
  | some r =>
    by_cases hr : r = "" <;>
      simp [setAuthData, storeSet, hr, uk_ne_rk]

lemma isAuthenticated_setAuthData (s : Store) (u : User) (token : String)
    (rt : Option String) (h : token ≠ "") :
    isAuthenticated (setAuthData s u token rt) = true := by
  unfold isAuthenticated getToken
  rw [setAuthData_token, setAuthData_user]
  simp [truthy, h, jsonUser_ne_empty u]

/-- C2 counterexample: the claim asserts that every success envelope with a
data payload makes isAuthenticated() true, and that the refresh token is
persisted whenever present. A payload whose token is the empty string is
persisted verbatim but leaves isAuthenticated() false (JS truthiness in
`!!(token && user)`), and an empty-string refresh token is present but not
persisted (`if (refreshToken)` is falsy on ""). -/
theorem login_empty_token_counterexample :
    (login emptyStore
        (Except.ok ⟨true, some ⟨⟨"1", "a@b.com", "Ada", "B", "2024-01-01", none⟩, "", none⟩,
          none, none⟩)).1.success = true ∧
    (login emptyStore
        (Except.ok ⟨true, some ⟨⟨"1", "a@b.com", "Ada", "B", "2024-01-01", none⟩, "", none⟩,
          none, none⟩)).2 TOKEN_KEY = some "" ∧
    isAuthenticated
        (login emptyStore
          (Except.ok ⟨true, some ⟨⟨"1", "a@b.com", "Ada", "B", "2024-01-01", none⟩, "", none⟩,
            none, none⟩)).2 = false ∧
    (login emptyStore
        (Except.ok ⟨true, some ⟨⟨"1", "a@b.com", "Ada", "B", "2024-01-01", none⟩, "T1", some ""⟩,
          none, none⟩)).2 REFRESH_TOKEN_KEY = none := by
  refine ⟨rfl, by decide, by decide, by decide⟩

/-- C2 (amended): For every outcome of the underlying POST to /auth/login,
AuthService.login returns an AuthResponse and never throws: when the
envelope has success=true with a data payload, it returns success=true and
persists the payload's token and user under the token and user storage keys
(and the refresh token under its key when present and nonempty), and
isAuthenticated() becomes true provided the payload's token is nonempty; in
every other case (failure envelope, or any thrown error) it returns
success=false with a human-readable message and none of the three stored
keys is modified. -/
theorem login_auth_response_and_persistence (s : Store)
    (net : Except ApiError (ApiResponse LoginData)) :
    (∀ resp d, net = Except.ok resp → resp.success = true → resp.data = some d →
        (login s net).1.success = true ∧
        (login s net).2 TOKEN_KEY = some d.token ∧
        (login s net).2 USER_KEY = some (jsonUser d.user) ∧
        (∀ rt, d.refreshToken = some rt → rt ≠ "" →
            (login s net).2 REFRESH_TOKEN_KEY = some rt) ∧
        (d.token ≠ "" → isAuthenticated (login s net).2 = true)) ∧
    (∀ resp, net = Except.ok resp → (resp.success = false ∨ resp.data = none) →
        (login s net).1.success = false ∧
        ((login s net).1.message).isSome = true ∧
        (login s net).2 TOKEN_KEY = s TOKEN_KEY ∧
        (login s net).2 USER_KEY = s USER_KEY ∧
        (login s net).2 REFRESH_TOKEN_KEY = s REFRESH_TOKEN_KEY) ∧
    (∀ e, net = Except.error e →
        (login s net).1.success = false ∧
        ((login s net).1.message).isSome = true ∧
        (login s net).2 TOKEN_KEY = s TOKEN_KEY ∧
        (login s net).2 USER_KEY = s USER_KEY ∧
        (login s net).2 REFRESH_TOKEN_KEY = s REFRESH_TOKEN_KEY) := by
  refine ⟨?_, ?_, ?_⟩
  · intro resp d hnet hsucc hdata
    subst hnet
    obtain ⟨su, da, me, er⟩ := resp
    change su = true at hsucc
    change da = some d at hdata
    subst hsucc
    subst hdata
    refine ⟨rfl, setAuthData_token _ _ _ _, setAuthData_user _ _ _ _, ?_, ?_⟩
    · intro rt hrt hne
      show setAuthData s d.user d.token d.refreshToken REFRESH_TOKEN_KEY = some rt
      rw [hrt]
      simp [setAuthData, hne, storeSet]
    · intro htok
      exact isAuthenticated_setAuthData _ _ _ _ htok
  · intro resp hnet hfail
    subst hnet
    rcases hfail with hsucc | hdata
    · cases hd : resp.data with
      | none => simp [login, hd, hsucc]
      | some d => simp [login, hd, hsucc]
    · simp [login, hdata]
  · intro e hnet
    subst hnet
    simp [login]

theorem login_persistence_witness :
    (login emptyStore
        (Except.ok ⟨true, some ⟨⟨"2", "w@b.com", "Wi", "Tn", "2024-02-02", none⟩, "T1", some "R1"⟩,
          none, none⟩)).2 TOKEN_KEY = some "T1" ∧
    isAuthenticated
        (login emptyStore
          (Except.ok ⟨true, some ⟨⟨"2", "w@b.com", "Wi", "Tn", "2024-02-02", none⟩, "T1", some "R1"⟩,
            none, none⟩)).2 = true ∧
    (login emptyStore
        (Except.ok ⟨true, some ⟨⟨"2", "w@b.com", "Wi", "Tn", "2024-02-02", none⟩, "T1", some "R1"⟩,
          none, none⟩)).2 REFRESH_TOKEN_KEY = some "R1" ∧
    (login emptyStore
        (Except.ok ⟨false, none, some "Invalid credentials", none⟩)).1.success = false ∧
    (login emptyStore
        (Except.ok ⟨false, none, some "Invalid credentials", none⟩)).2 TOKEN_KEY =
      emptyStore TOKEN_KEY ∧
    (login emptyStore
        (Except.error ⟨"Network request failed", 0, none⟩)).1.success = false := by
  have h := login_auth_response_and_persistence emptyStore
    (Except.ok ⟨true, some ⟨⟨"2", "w@b.com", "Wi", "Tn", "2024-02-02", none⟩, "T1", some "R1"⟩,
      none, none⟩)
  have hf := login_auth_response_and_persistence emptyStore
    (Except.ok ⟨false, none, some "Invalid credentials", none⟩)
  have he := login_auth_response_and_persistence emptyStore
    (Except.error ⟨"Network request failed", 0, none⟩)
  refine ⟨(h.1 _ _ rfl rfl rfl).2.1, (h.1 _ _ rfl rfl rfl).2.2.2.2 (by decide),
    (h.1 _ _ rfl rfl rfl).2.2.2.1 "R1" rfl (by decide),
    (hf.2.1 _ rfl (Or.inl rfl)).1, (hf.2.1 _ rfl (Or.inl rfl)).2.2.1,
    (he.2.2 _ rfl).1⟩

/-- C3: For every operation and the default maxRetries=3,
BaseController.createRetryOperation satisfies: if the operation fails on the
first two invocations and succeeds on the third, the success value is
returned; if the operation fails on every invocation, it is invoked exactly
3 times (never more), the wait before invocation n+1 is delay * n
milliseconds, and the error from the final invocation is rethrown
unmodified; with an attempt count ≤ 0 no retry occurs. -/
theorem retry_operation_spec :
    (∀ (op : Nat → Except String Nat) (d v : Nat) (e1 e2 : String),
        op 1 = Except.error e1 → op 2 = Except.error e2 → op 3 = Except.ok v →
        (createRetryOperation op 3 d).result = Except.ok v) ∧
    (∀ (op : Nat → Except String Nat) (d : Nat) (e1 e2 e3 : String),
        op 1 = Except.error e1 → op 2 = Except.error e2 → op 3 = Except.error e3 →
        (createRetryOperation op 3 d).invocations = 3 ∧
        (createRetryOperation op 3 d).waits = [d * 1, d * 2] ∧
        (createRetryOperation op 3 d).result = Except.error (some e3)) ∧
    (∀ (op : Nat → Except String Nat) (m : Int) (d : Nat), m ≤ 0 →
        (createRetryOperation op m d).invocations = 0) := by
  refine ⟨?_, ?_, ?_⟩
  · intro op d v e1 e2 h1 h2 h3
    have hr : createRetryOperation op 3 d = retryGo op d [1, 2, 3] none := rfl
    rw [hr]
    simp [retryGo, h1, h2, h3]
  · intro op d e1 e2 e3 h1 h2 h3
    have hr : createRetryOperation op 3 d = retryGo op d [1, 2, 3] none := rfl
    rw [hr]
    simp [retryGo, h1, h2, h3]
  · intro op m d hm
    have h0 : m.toNat = 0 := Int.toNat_of_nonpos hm
    have hr : createRetryOperation op m d = retryGo op d (List.range' 1 m.toNat) none := rfl
    rw [hr, h0]
    simp [List.range', retryGo]

/-- An operation failing on attempts 1 and 2 and succeeding on attempt 3. -/
def opThird : Nat → Except String Nat :=
  fun n => if n = 3 then Except.ok 42 else Except.error ("fail " ++ toString n)

/-- An operation failing on every attempt. -/
def opNever : Nat → Except String Nat :=
  fun n => Except.error ("fail " ++ toString n)

theorem retry_operation_witness :
    (createRetryOperation opThird 3 1000).result = Except.ok 42 ∧
    (createRetryOperation opNever 3 5).invocations = 3 ∧
    (createRetryOperation opNever 3 5).waits = [5 * 1, 5 * 2] ∧
    (createRetryOperation opNever 3 5).result = Except.error (some "fail 3") ∧
    (createRetryOperation opNever (-1) 5).invocations = 0 := by
  have h := retry_operation_spec
  obtain ⟨hi, hw, hres⟩ := h.2.1 opNever 5 "fail 1" "fail 2" "fail 3" rfl rfl rfl
  exact ⟨h.1 opThird 1000 42 "fail 1" "fail 2" rfl rfl rfl, hi, hw, hres,
    h.2.2 opNever (-1) 5 (by decide)⟩

/-- C4: AppController.isSessionActive(30) is a pure function of
now - lastActivity: it returns false whenever now - lastActivity is greater
than 30*60*1000 milliseconds, true whenever it is smaller, and false at the
boundary where now - lastActivity equals exactly 30*60*1000. -/
theorem session_active_boundary_spec (now lastActivity : Int) :
    (now - lastActivity > 30 * 60 * 1000 → isSessionActive now lastActivity 30 = false) ∧
    (now - lastActivity < 30 * 60 * 1000 → isSessionActive now lastActivity 30 = true) ∧
    (now - lastActivity = 30 * 60 * 1000 → isSessionActive now lastActivity 30 = false) ∧
    (∀ n2 l2 : Int, now - lastActivity = n2 - l2 →
        isSessionActive now lastActivity 30 = isSessionActive n2 l2 30) := by
  refine ⟨?_, ?_, ?_, ?_⟩
  · intro h
    simp only [isSessionActive, decide_eq_false_iff_not]
    omega
  · intro h
    simp only [isSessionActive, decide_eq_true_eq]
    omega
  · intro h
    simp only [isSessionActive, decide_eq_false_iff_not]
    omega
  · intro n2 l2 h
    simp [isSessionActive, h]

theorem session_active_witness :
    isSessionActive 1800001 0 30 = false ∧
    isSessionActive 1799999 0 30 = true ∧
    isSessionActive 1800000 0 30 = false := by
  exact ⟨(session_active_boundary_spec 1800001 0).1 (by decide),
    (session_active_boundary_spec 1799999 0).2.1 (by decide),
    (session_active_boundary_spec 1800000 0).2.2.1 (by decide)⟩

/-- C5: AuthService.logout always removes all three persisted keys and never
throws (it is a total function of the store and the settled network
outcome): the POST to the logout endpoint is attempted exactly when the
stored token is truthy, its outcome is discarded (caught and logged), and
the removal of the three keys happens in every case — the result does not
depend on the network outcome at all. -/
theorem logout_always_clears_auth_data (s : Store)
    (net1 net2 : Except ApiError (ApiResponse Unit)) :
    (logout s net1).1 TOKEN_KEY = none ∧
    (logout s net1).1 USER_KEY = none ∧
    (logout s net1).1 REFRESH_TOKEN_KEY = none ∧
    (logout s net1).2 = truthy (getToken s) ∧
    logout s net1 = logout s net2 := by
  refine ⟨?_, ?_, ?_, rfl, rfl⟩
  · show clearAuthData s TOKEN_KEY = none
    unfold clearAuthData
    rw [storeRemove_get_ne _ _ _ tk_ne_rk, storeRemove_get_ne _ _ _ tk_ne_uk,
      storeRemove_get_same]
  · show clearAuthData s USER_KEY = none
    unfold clearAuthData
    rw [storeRemove_get_ne _ _ _ uk_ne_rk, storeRemove_get_same]
  · show clearAuthData s REFRESH_TOKEN_KEY = none
    unfold clearAuthData
    rw [storeRemove_get_same]

/-- C6: When a request is configured with requireAuth explicitly false, the
client adds no Authorization header: for any two stored-token states (token
present with any value, or absent) and the same caller-supplied headers,
prepareHeaders produces identical header sets, and that set contains an
Authorization entry exactly when (and with the value that) the caller
supplied one itself. -/
theorem no_auth_header_when_require_auth_false (opts : RequestOptions)
    (t1 t2 : Option String) (h : opts.requireAuth = some false) :
    prepareHeaders opts t1 = prepareHeaders opts t2 ∧
    hget (prepareHeaders opts t1) "Authorization" = hget opts.headers "Authorization" := by
  constructor
  · simp [prepareHeaders, h]
  · have hp : prepareHeaders opts t1 = defaultHeaders ++ opts.headers := by
      simp [prepareHeaders, h]
    rw [hp, hget_append]
    cases hh : hget opts.headers "Authorization" with
    | some v => rfl
    | none => rfl

/-- Concrete options for the C6 witness: requireAuth explicitly false and a
caller-supplied custom header. -/
def optsC6 : RequestOptions := ⟨some "GET", [("X-Custom", "1")], none, some false, none⟩

theorem no_auth_header_witness :
    prepareHeaders optsC6 (some "SECRET") = prepareHeaders optsC6 none ∧
    hget (prepareHeaders optsC6 (some "SECRET")) "Authorization" =
      hget optsC6.headers "Authorization" := by
  exact no_auth_header_when_require_auth_false optsC6 (some "SECRET") none rfl

/-- Options exhibiting the FormData violation of C7: a POST with a FormData
body and a caller-supplied Content-Type. -/
def optsFD : RequestOptions :=
  ⟨some "POST", [("Content-Type", "text/plain")], some Body.formData, some false, none⟩

/-- Options exhibiting the auth-injection violation of C7: no explicit
requireAuth, no caller headers, a token in the store. -/
def optsAuth : RequestOptions := ⟨some "GET", [], none, none, none⟩

/-- C7 counterexample: the claim says the final header set always equals the
two defaults merged with the caller's headers with the caller winning on
every conflict. Two concrete configurations refute it: (1) with a FormData
body on a POST, `delete headers['Content-Type']` erases Content-Type even
though the caller supplied it — a name present in both maps whose final
value is not the caller's; (2) with requireAuth unset and a stored token,
an Authorization entry appears in the final set although it occurs in
neither the defaults nor the caller's map. -/
theorem header_merge_counterexample :
    hget optsFD.headers "Content-Type" = some "text/plain" ∧
    hget defaultHeaders "Content-Type" = some "application/json" ∧
    hget (sentHeaders optsFD none) "Content-Type" = none ∧
    hget (sentHeaders optsAuth (some "T")) "Authorization" = some "Bearer T" ∧
    hget (defaultHeaders ++ optsAuth.headers) "Authorization" = none := by
  refine ⟨rfl, rfl, by decide, by decide, rfl⟩

/-- C7 (amended): For every request configuration in which no Authorization
header is injected (requireAuth is explicitly false, or the stored token
yields no auth header) and whose body is not a FormData payload, the final
header set sent with the request equals the defaults Content-Type:
application/json and Accept: application/json merged with the
caller-supplied headers, with the caller's value winning on every conflict:
for every header name the caller supplies, the final value is the caller's,
and every other name resolves to the defaults. -/
theorem headers_merge_caller_wins (opts : RequestOptions) (tok : Option String)
    (hauth : opts.requireAuth = some false ∨ getAuthHeaders tok = [])
    (hbody : opts.body ≠ some Body.formData) :
    sentHeaders opts tok = defaultHeaders ++ opts.headers ∧
    (∀ k v, hget opts.headers k = some v → hget (sentHeaders opts tok) k = some v) ∧
    (∀ k, hget opts.headers k = none →
        hget (sentHeaders opts tok) k = hget defaultHeaders k) := by
  have hp : prepareHeaders opts tok = defaultHeaders ++ opts.headers := by
    rcases hauth with h | h
    · simp [prepareHeaders, h]
    · unfold prepareHeaders
      rw [h]
      split <;> simp
  have hsent : sentHeaders opts tok = defaultHeaders ++ opts.headers := by
    cases hb : opts.body with
    | none => rw [← hp]; simp [sentHeaders, hb]
    | some b =>
      cases b with
      | formData => exact absurd hb hbody
      | jsonData p => rw [← hp]; simp [sentHeaders, hb]
  refine ⟨hsent, ?_, ?_⟩
  · intro k v hv
    rw [hsent, hget_append, hv]
  · intro k hk
    rw [hsent, hget_append, hk]

/-- Concrete options for the C7 witness: a JSON POST with requireAuth false
and a caller header overriding the Accept default. -/
def optsC7 : RequestOptions :=
  ⟨some "POST", [("Accept", "text/csv"), ("X-Trace", "t")],
   some (Body.jsonData "x"), some false, none⟩

theorem headers_merge_witness :
    sentHeaders optsC7 (some "TOK") = defaultHeaders ++ optsC7.headers ∧
    hget (sentHeaders optsC7 (some "TOK")) "Accept" = some "text/csv" ∧
    hget (sentHeaders optsC7 (some "TOK")) "Content-Type" = some "application/json" := by
  have h := headers_merge_caller_wins optsC7 (some "TOK") (Or.inl rfl) (by decide)
  exact ⟨h.1, h.2.1 "Accept" "text/csv" rfl, h.2.2 "Content-Type" rfl⟩

/-- C8: AuthService.refreshAuthToken returns success:false without
performing any network call when no refresh token is stored; when the
exchange succeeds it overwrites the stored token key (and the stored
refresh-token key only when a new refresh token is returned); and in every
outcome the stored user record key is left unchanged. -/
theorem refresh_token_frame_spec (s : Store)
    (net : Except ApiError (ApiResponse RefreshData)) :
    (s REFRESH_TOKEN_KEY = none →
        refreshAuthToken s net = (⟨false, none⟩, s, false)) ∧
    (∀ rt resp d, s REFRESH_TOKEN_KEY = some rt → rt ≠ "" →
        net = Except.ok resp → resp.success = true → resp.data = some d →
        (refreshAuthToken s net).1.success = true ∧
        (refreshAuthToken s net).2.1 TOKEN_KEY = some d.token ∧
        (d.refreshToken = none →
            (refreshAuthToken s net).2.1 REFRESH_TOKEN_KEY = s REFRESH_TOKEN_KEY) ∧
        (∀ nrt, d.refreshToken = some nrt → nrt ≠ "" →
            (refreshAuthToken s net).2.1 REFRESH_TOKEN_KEY = some nrt)) ∧
    ((refreshAuthToken s net).2.1 USER_KEY = s USER_KEY) := by
  refine ⟨?_, ?_, ?_⟩
  · intro h
    simp [refreshAuthToken, getRefreshToken, h]
  · intro rt resp d hrt hne hnet hsucc hdata
    subst hnet
    obtain ⟨su, da, me, er⟩ := resp
    change su = true at hsucc
    change da = some d at hdata
    subst hsucc
    subst hdata
    have hred : refreshAuthToken s (Except.ok ⟨true, some d, me, er⟩) =
        (⟨true, some d.token⟩,
         (match d.refreshToken with
          | some nrt =>
              if nrt = "" then storeSet s TOKEN_KEY d.token
              else storeSet (storeSet s TOKEN_KEY d.token) REFRESH_TOKEN_KEY nrt
          | none => storeSet s TOKEN_KEY d.token), true) := by
      simp [refreshAuthToken, getRefreshToken, hrt, hne]
    rw [hred]
    refine ⟨rfl, ?_, ?_, ?_⟩
    · cases hdr : d.refreshToken with
      | none =>
        show storeSet s TOKEN_KEY d.token TOKEN_KEY = some d.token
        exact storeSet_get_same _ _ _
      | some nrt =>
        show (if nrt = "" then storeSet s TOKEN_KEY d.token
              else storeSet (storeSet s TOKEN_KEY d.token) REFRESH_TOKEN_KEY nrt)
            TOKEN_KEY = some d.token
        by_cases hn : nrt = ""
        · rw [if_pos hn]
          exact storeSet_get_same _ _ _
        · rw [if_neg hn, storeSet_get_ne _ _ _ _ tk_ne_rk]
          exact storeSet_get_same _ _ _
    · intro hdr
      rw [hdr]
      show storeSet s TOKEN_KEY d.token REFRESH_TOKEN_KEY = s REFRESH_TOKEN_KEY
      exact storeSet_get_ne _ _ _ _ rk_ne_tk
    · intro nrt hdr hn
      rw [hdr]
      show (if nrt = "" then storeSet s TOKEN_KEY d.token
            else storeSet (storeSet s TOKEN_KEY d.token) REFRESH_TOKEN_KEY nrt)
          REFRESH_TOKEN_KEY = some nrt
      rw [if_neg hn]
      exact storeSet_get_same _ _ _
  · cases hS : s REFRESH_TOKEN_KEY with
    | none => simp [refreshAuthToken, getRefreshToken, hS]
    | some rt =>
      by_cases hrt : rt = ""
      · simp [refreshAuthToken, getRefreshToken, hS, hrt]
      · cases net with
        | error e => simp [refreshAuthToken, getRefreshToken, hS, hrt]
        | ok resp =>
          obtain ⟨su, da, me, er⟩ := resp
          cases da with
          | none => cases su <;> simp [refreshAuthToken, getRefreshToken, hS, hrt]
          | some d =>
            cases su with
            | false => simp [refreshAuthToken, getRefreshToken, hS, hrt]
            | true =>
              cases hdr : d.refreshToken with
              | none =>
                simp [refreshAuthToken, getRefreshToken, hS, hrt, hdr, storeSet,
                  uk_ne_tk]
              | some nrt =>
                by_cases hn : nrt = "" <;>
                  simp [refreshAuthToken, getRefreshToken, hS, hrt, hdr, hn, storeSet,
                    uk_ne_tk, uk_ne_rk]

/-- A store holding a full token/user/refresh-token triple for the C8
witness. -/
def storeR : Store :=
  storeSet (storeSet (storeSet emptyStore TOKEN_KEY "OLD") USER_KEY "U") REFRESH_TOKEN_KEY "R0"

theorem refresh_token_witness :
    (refreshAuthToken storeR (Except.ok ⟨true, some ⟨"T2", some "R2"⟩, none, none⟩)).1.success
        = true ∧
    (refreshAuthToken storeR (Except.ok ⟨true, some ⟨"T2", some "R2"⟩, none, none⟩)).2.1
        TOKEN_KEY = some "T2" ∧
    (refreshAuthToken storeR (Except.ok ⟨true, some ⟨"T2", some "R2"⟩, none, none⟩)).2.1
        REFRESH_TOKEN_KEY = some "R2" ∧
    (refreshAuthToken storeR (Except.ok ⟨true, some ⟨"T2", some "R2"⟩, none, none⟩)).2.1
        USER_KEY = storeR USER_KEY ∧
    refreshAuthToken emptyStore (Except.ok ⟨true, some ⟨"T2", some "R2"⟩, none, none⟩) =
      (⟨false, none⟩, emptyStore, false) := by
  have h := refresh_token_frame_spec storeR
    (Except.ok ⟨true, some ⟨"T2", some "R2"⟩, none, none⟩)
  have h2 := refresh_token_frame_spec emptyStore
    (Except.ok ⟨true, some ⟨"T2", some "R2"⟩, none, none⟩)
  obtain ⟨hs, ht, _, hn⟩ := h.2.1 "R0" _ _ (by decide) (by decide) rfl rfl rfl
  exact ⟨hs, ht, hn "R2" rfl (by decide), h.2.2, h2.1 rfl⟩

/-- C9: The confirmPassword value never reaches the network: the body
AuthService.signup sends to /auth/signup is exactly the credentials with
the confirmPassword field removed — two credentials objects differing only
in confirmPassword produce identical request bodies — and the signup form's
client-side validation rejects a submission whose password and
confirmPassword differ, so no network call is made for it. -/
theorem confirm_password_never_sent :
    (∀ c s net, (signup c s net).2.2 =
        (⟨c.email, c.password, c.firstName, c.lastName⟩ : SignupBody)) ∧
    (∀ c1 c2 : SignupCredentials,
        c1.email = c2.email → c1.password = c2.password →
        c1.firstName = c2.firstName → c1.lastName = c2.lastName →
        ∀ s net, (signup c1 s net).2.2 = (signup c2 s net).2.2) ∧
    (∀ (emailOk : String → Bool) (c : SignupCredentials),
        c.password ≠ c.confirmPassword →
        signupFormSubmit emailOk c = SubmitAction.rejected) := by
  have hbody : ∀ c s net, (signup c s net).2.2 =
      (⟨c.email, c.password, c.firstName, c.lastName⟩ : SignupBody) := by
    intro c s net
    cases net with
    | error e => rfl
    | ok resp =>
      obtain ⟨su, da, me, er⟩ := resp
      cases da <;> cases su <;> rfl
  refine ⟨hbody, ?_, ?_⟩
  · intro c1 c2 he hp hf hl s net
    rw [hbody, hbody, he, hp, hf, hl]
  · intro emailOk c h
    simp [signupFormSubmit, signupSchemaValid, h]

theorem confirm_password_witness :
    (signup ⟨"a@b.com", "longenough1", "Ada", "Lovelace", "x"⟩ emptyStore
        (Except.error ⟨"e", 0, none⟩)).2.2 =
      (signup ⟨"a@b.com", "longenough1", "Ada", "Lovelace", "y"⟩ emptyStore
        (Except.error ⟨"e", 0, none⟩)).2.2 ∧
    signupFormSubmit (fun _ => true)
        ⟨"a@b.com", "longenough1", "Ada", "Lovelace", "different1"⟩ =
      SubmitAction.rejected := by
  exact ⟨confirm_password_never_sent.2.1 _ _ rfl rfl rfl rfl emptyStore _,
    confirm_password_never_sent.2.2 (fun _ => true) _ (by decide)⟩

/-- C10: For every path string, AppController.isProtectedRoute(path)
returns true exactly when path starts with one of the five fixed prefixes
'/upload', '/results', '/history', '/profile', '/settings'; in particular
'/', '/login', and '/signup' are never protected, while every extension of
a protected prefix (for example '/results/42') is protected. -/
theorem protected_route_characterization (path : String) :
    (isProtectedRoute path = true ↔
      (strStarts path "/upload" = true ∨ strStarts path "/results" = true ∨
       strStarts path "/history" = true ∨ strStarts path "/profile" = true ∨
       strStarts path "/settings" = true)) ∧
    isProtectedRoute "/" = false ∧
    isProtectedRoute "/login" = false ∧
    isProtectedRoute "/signup" = false ∧
    isProtectedRoute "/results/42" = true := by
  refine ⟨?_, by decide, by decide, by decide, by decide⟩
  simp [isProtectedRoute, protectedRoutes, List.any_cons, List.any_nil, Bool.or_eq_true]
